import Mathlib

/-!
Verification of the WebRTC `VideoEncoder` contract
(`api/video_codecs/video_encoder.h`).

The repository provides only the interface header: the bodies of the
default-shim methods, the `ScalingSettings` / `EncoderInfo` constructors and
the behavioral contract imposed on backends live outside the given sources
and are modelled from the specification, as marked on each definition.
Everything else is translated directly from the header.
-/

namespace Webrtc

/-! ## Error codes

Modelled from the spec: the header refers to the return codes
`WEBRTC_VIDEO_CODEC_OK`, `WEBRTC_VIDEO_CODEC_ERR_PARAMETER`,
`WEBRTC_VIDEO_CODEC_MEMORY`, `WEBRTC_VIDEO_CODEC_ERROR` and the
`NotInitialized` kind (`WEBRTC_VIDEO_CODEC_UNINITIALIZED`); the defining
header (`video_error_codes.h`) is not among the sources. -/

def WEBRTC_VIDEO_CODEC_OK : Int := 0

def WEBRTC_VIDEO_CODEC_ERROR : Int := -1

def WEBRTC_VIDEO_CODEC_MEMORY : Int := -3

def WEBRTC_VIDEO_CODEC_ERR_PARAMETER : Int := -4

def WEBRTC_VIDEO_CODEC_UNINITIALIZED : Int := -7

/-! ## Layer-count constants

Modelled from the spec: `kMaxSpatialLayers` and `kMaxTemporalStreams` come
from `video_codec_constants.h`, which is not among the sources; the spec
only requires fixed maxima (spatial ≤ S_max, temporal ≤ T_max). -/

def kMaxSpatialLayers : Nat := 5

def kMaxTemporalStreams : Nat := 4

/-! ## QpThresholds (header lines 83-88, inline constructors) -/

/-- Translation of `VideoEncoder::QpThresholds`: a pair of quantization-quality thresholds.
Translated from the header; both constructors are inline in the source. -/
structure QpThresholds where
  low : Int
  high : Int
  deriving DecidableEq, Repr

/-- Constructor `QpThresholds(int l, int h) : low(l), high(h)`. -/
def QpThresholds.ofPair (l h : Int) : QpThresholds := { low := l, high := h }

/-- Constructor `QpThresholds() : low(-1), high(-1)`. -/
def QpThresholds.defaultCtor : QpThresholds := { low := -1, high := -1 }

/-! ## ScalingSettings (header lines 90-122) -/

/-- Translation of `VideoEncoder::ScalingSettings`: optional quality thresholds plus a
minimum pixel count.  The field shapes and the default member initializer
`min_pixels_per_frame = 320 * 180` are translated from the header. -/
structure ScalingSettings where
  thresholds : Option QpThresholds
  min_pixels_per_frame : Int
  deriving DecidableEq, Repr

/-- Modelled from the spec: `ScalingSettings(KOff)` — the constructor body is
not among the sources; per the header, the magic constant `kOff` yields an
object without thresholds, and `min_pixels_per_frame` keeps its default
member initializer `320 * 180`. -/
def ScalingSettings.ofKOff : ScalingSettings :=
  { thresholds := none, min_pixels_per_frame := 320 * 180 }

/-- Modelled from the spec: `ScalingSettings(int low, int high)` — the body is
not among the sources; it stores the `(low, high)` thresholds and keeps the
default member initializer for `min_pixels_per_frame`. -/
def ScalingSettings.ofThresholds (low high : Int) : ScalingSettings :=
  { thresholds := some (QpThresholds.ofPair low high),
    min_pixels_per_frame := 320 * 180 }

/-- Modelled from the spec: `ScalingSettings(int low, int high, int min_pixels)`
— stores the thresholds and the explicit minimum pixel count. -/
def ScalingSettings.ofThresholdsMinPixels (low high min_pixels : Int) :
    ScalingSettings :=
  { thresholds := some (QpThresholds.ofPair low high),
    min_pixels_per_frame := min_pixels }

/-- Header line 89: "Quality scaling is enabled if thresholds are provided." -/
def ScalingSettings.qualityScalingEnabled (s : ScalingSettings) : Bool :=
  s.thresholds.isSome

/-! ## EncoderInfo (header lines 125-194) -/

/-- Constant `EncoderInfo::kMaxFramerateFraction = std::numeric_limits<uint8_t>::max()`
(header lines 126-127). -/
def kMaxFramerateFraction : Nat := 255

/-- Translation of `VideoEncoder::EncoderInfo`: metadata about an encoder implementation.
Field shapes translated from the header; `fps_allocation` is an array of
`kMaxSpatialLayers` sequences of 8-bit frame-rate fractions with at most
`kMaxTemporalStreams` entries each. -/
structure EncoderInfo where
  scaling_settings : ScalingSettings
  supports_native_handle : Bool
  implementation_name : String
  has_trusted_rate_controller : Bool
  is_hardware_accelerated : Bool
  has_internal_source : Bool
  fps_allocation : List (List Nat)
  deriving DecidableEq, Repr

/-- Modelled from the spec: the `EncoderInfo()` default constructor body is
not among the sources; per the header (lines 190-193) the frame-rate table
defaults to a single spatial layer containing a single temporal layer with a
100% frame-rate fraction, every other spatial layer's sequence empty. -/
def EncoderInfo.defaultCtor : EncoderInfo :=
  { scaling_settings := ScalingSettings.ofKOff,
    supports_native_handle := false,
    implementation_name := "unknown",
    has_trusted_rate_controller := false,
    is_hardware_accelerated := true,
    has_internal_source := false,
    fps_allocation := [[kMaxFramerateFraction], [], [], [], []] }

/-- Modelled from the spec: temporal layers are cumulative within a spatial
layer — each temporal layer depends on the previous one, so each fraction
already includes its predecessor (adjacent entries are nondecreasing). -/
@[reducible]
def cumulativeLayer (l : List Nat) : Prop :=
  List.Chain' (fun a b => a ≤ b) l

/-- An `EncoderInfo` conforms to the cumulative-temporal-layer contract when
every spatial layer's fps sequence is cumulative. -/
@[reducible]
def cumulativeFps (info : EncoderInfo) : Prop :=
  ∀ l ∈ info.fps_allocation, cumulativeLayer l

/-! ## Bitrate allocation and rate-control parameters -/

/-- Modelled from the spec: `VideoBitrateAllocation`
(`api/video/video_bitrate_allocation.h` is not among the sources) — a mapping
from (spatial layer, temporal layer) to a non-negative bitrate in bps. -/
structure VideoBitrateAllocation where
  bitrates : List (List Nat)
  deriving DecidableEq, Repr

/-- Modelled from the spec: `VideoBitrateAllocation::get_sum_bps` — the flat
sum of all per-layer bitrates, in bps. -/
def VideoBitrateAllocation.get_sum_bps (a : VideoBitrateAllocation) : Nat :=
  (a.bitrates.map (fun l => l.sum)).sum

/-- Modelled from the spec: `VideoBitrateAllocation::get_sum_kbps` — the flat
sum converted to kbps. -/
def VideoBitrateAllocation.get_sum_kbps (a : VideoBitrateAllocation) : Nat :=
  a.get_sum_bps / 1000

/-- Translation of `VideoEncoder::RateControlParameters` (header lines 196-209): per-layer
target bitrate, target framerate in fps (a double, modelled as `Rat`; a value
≤ 0 means "framerate target not available"), and the available network
bandwidth in bps (`DataRate`, modelled as `Nat`). -/
structure RateControlParameters where
  bitrate : VideoBitrateAllocation
  framerate_fps : Rat
  bandwidth_allocation : Nat
  deriving DecidableEq, Repr

/-! ## The default rate-call shim chain (header lines 263-282)

The header declares three virtual rate calls with default implementations:
`SetRates(const RateControlParameters&)` forwards to
`SetRateAllocation(allocation, framerate)`, whose default forwards
`allocation.get_sum_kbps()` and `framerate` to the oldest call
`SetRates(uint32_t, uint32_t)`, whose default hits `RTC_NOTREACHED()`.
The bodies are not among the sources; the dispatch below is modelled from
the spec and the header comments.  A backend is described by which of the
three virtual methods it overrides; a call is observed as the list of
override invocations (or the unreachable-code failure) it produces. -/

/-- Which levels of the rate-call chain a backend overrides. -/
structure Backend where
  overridesLegacyRates : Bool
  overridesRateAllocation : Bool
  overridesStructuredRates : Bool
  deriving DecidableEq, Repr

/-- Observable outcome of a rate call: which override ultimately ran, with
which arguments, or the unreachable-code failure of the last default. -/
inductive RateCall where
  | legacy (bitrate_kbps framerate : Nat)
  | allocation (alloc : VideoBitrateAllocation) (framerate : Nat)
  | structured (parameters : RateControlParameters)
  | notReached
  deriving DecidableEq, Repr

/-- Modelled from the spec: the integer framerate argument handed to the
legacy calls by the structured default (the target framerate rounded to a
whole number of fps). -/
def legacyFramerate (fps : Rat) : Nat := (fps + 1 / 2).floor.toNat

/-- Modelled from the spec: dispatch of `SetRates(uint32_t, uint32_t)` — an
overriding backend observes the call; the default implementation calls
`RTC_NOTREACHED()` and fails, forwarding nowhere (header lines 263-267).
Returns the `int32_t` result together with the observed calls. -/
def setRatesLegacy (b : Backend) (bitrate_kbps framerate : Nat) :
    Int × List RateCall :=
  if b.overridesLegacyRates then
    (WEBRTC_VIDEO_CODEC_OK, [RateCall.legacy bitrate_kbps framerate])
  else
    (WEBRTC_VIDEO_CODEC_ERROR, [RateCall.notReached])

/-- Modelled from the spec: dispatch of `SetRateAllocation(allocation,
framerate)` — an overriding backend observes the call; the default forwards
`allocation.get_sum_kbps()` and `framerate` to the legacy
`SetRates(uint32_t, uint32_t)` (header lines 269-275). -/
def setRateAllocation (b : Backend) (alloc : VideoBitrateAllocation)
    (framerate : Nat) : Int × List RateCall :=
  if b.overridesRateAllocation then
    (WEBRTC_VIDEO_CODEC_OK, [RateCall.allocation alloc framerate])
  else
    setRatesLegacy b alloc.get_sum_kbps framerate

/-- Modelled from the spec: dispatch of
`SetRates(const RateControlParameters&)` — an overriding backend observes
the call; the default forwards the bitrate allocation and the target
framerate to `SetRateAllocation` (header lines 277-282). -/
def setRatesStructured (b : Backend) (p : RateControlParameters) :
    List RateCall :=
  if b.overridesStructuredRates then
    [RateCall.structured p]
  else
    (setRateAllocation b p.bitrate (legacyFramerate p.framerate_fps)).2

/-! ## Encoder lifecycle (header lines 215-261, spec section 4.1)

The header's lifecycle methods (`InitEncode`, `Release`, `Encode`) are pure
virtual; the state machine a conforming backend must implement is modelled
from the spec: uninitialized → initialized (successful `InitEncode`) →
uninitialized again (`Release`, or a failed `InitEncode`). -/

/-- Modelled from the spec: the slice of `VideoCodec`
(`api/video_codecs/video_codec.h` is not among the sources) the contract
refers to — the maximum framerate of the codec settings (`uint32_t`). -/
structure VideoCodec where
  maxFramerate : Nat
  deriving DecidableEq, Repr

/-- Lifecycle events observed by one encoder instance: a successful
`InitEncode` with its codec settings, a failed `InitEncode`, or `Release`. -/
inductive LifeEvent where
  | initOk (codec_settings : VideoCodec)
  | initFail
  | release
  deriving DecidableEq, Repr

/-- Modelled from the spec: the state a conforming backend tracks — whether
it is initialized, the max framerate from the codec settings of the most
recent successful `InitEncode`, and the framerate it currently operates at. -/
structure EncoderState where
  initialized : Bool
  maxFramerate : Nat
  currentFramerate : Rat
  deriving DecidableEq, Repr

/-- A freshly constructed encoder: uninitialized. -/
def initialState : EncoderState :=
  { initialized := false, maxFramerate := 0, currentFramerate := 0 }

/-- Modelled from the spec: effect of one lifecycle event.  A successful
`InitEncode` initializes the encoder and records the settings' max framerate
as the operating framerate; a failed `InitEncode` leaves it uninitialized;
`Release` returns it to uninitialized. -/
def stepLife (s : EncoderState) : LifeEvent → EncoderState
  | LifeEvent.initOk c =>
      { initialized := true, maxFramerate := c.maxFramerate,
        currentFramerate := (c.maxFramerate : Rat) }
  | LifeEvent.initFail => { s with initialized := false }
  | LifeEvent.release => { s with initialized := false }

/-- The state after a sequence of lifecycle events. -/
def runLife (s : EncoderState) : List LifeEvent → EncoderState
  | [] => s
  | e :: rest => runLife (stepLife s e) rest

/-- Whether a successful `InitEncode` occurs in the event list. -/
def hasInitOk : List LifeEvent → Bool
  | [] => false
  | LifeEvent.initOk _ :: _ => true
  | _ :: rest => hasInitOk rest

/-- Codec settings of the most recent successful `InitEncode`, if any. -/
def lastInit : List LifeEvent → Option VideoCodec
  | [] => none
  | LifeEvent.initOk c :: rest => some ((lastInit rest).getD c)
  | _ :: rest => lastInit rest

/-- Modelled from the spec: `Encode` on a conforming backend — before a
successful `InitEncode`, or after `Release`, it fails with the
`NotInitialized` kind (`WEBRTC_VIDEO_CODEC_UNINITIALIZED`); when initialized
it returns whatever result the concrete backend produces. -/
def encodeResult (s : EncoderState) (backend_result : Int) : Int :=
  if s.initialized then backend_result else WEBRTC_VIDEO_CODEC_UNINITIALIZED

/-- Modelled from the spec: the rate-state effect of
`SetRates(const RateControlParameters&)` — a framerate ≤ 0 means "framerate
target not available" and the encoder falls back to the max framerate of the
codec settings of its last `InitEncode` call (header lines 200-204);
otherwise the new target becomes the operating framerate. -/
def applySetRates (s : EncoderState) (p : RateControlParameters) :
    EncoderState :=
  if p.framerate_fps ≤ 0 then
    { s with currentFramerate := (s.maxFramerate : Rat) }
  else
    { s with currentFramerate := p.framerate_fps }

/-! ## Encoded-result channel (header lines 36-79, spec section 4.2) -/

/-- Translation of `EncodedImageCallback::Result::Error` (header lines 41-46). -/
inductive ResultError where
  | OK
  | ERROR_SEND_FAILED
  deriving DecidableEq, Repr

/-- Translation of `EncodedImageCallback::Result` (header lines 40-61): error code, frame id
(a `uint32_t`), and the `drop_next_frame` directive telling the encoder that
the next frame should be dropped. -/
structure Result where
  error : ResultError
  frame_id : Nat
  drop_next_frame : Bool
  deriving DecidableEq, Repr

/-- Translation of `EncodedImageCallback::DropReason` (header lines 67-70). -/
inductive DropReason where
  | kDroppedByMediaOptimizations
  | kDroppedByEncoder
  deriving DecidableEq, Repr

/-- Callback activity a backend produces for one submitted frame: either an
`OnEncodedImage` invocation (recorded with the `Result` the pipeline
returned for it) or an `OnDroppedFrame` invocation with its reason. -/
inductive ChannelEvent where
  | encodedImage (r : Result)
  | droppedFrame (reason : DropReason)
  deriving DecidableEq, Repr

/-- Modelled from the spec: a conforming backend's frame loop.  The input
list gives, for each submitted frame in order, the `Result` the pipeline's
callback would return were that frame encoded; `drop_next` is the pending
"drop next frame" directive.  A frame submitted while the directive is
pending is skipped: the backend invokes
`OnDroppedFrame(kDroppedByMediaOptimizations)`, produces no `OnEncodedImage`
for it, and clears the directive.  Otherwise the frame is encoded,
`OnEncodedImage` fires, and the returned result's `drop_next_frame` flag
becomes the new directive. -/
def runEnc (drop_next : Bool) : List Result → List ChannelEvent
  | [] => []
  | r :: rest =>
      if drop_next then
        ChannelEvent.droppedFrame DropReason.kDroppedByMediaOptimizations ::
          runEnc false rest
      else
        ChannelEvent.encodedImage r :: runEnc r.drop_next_frame rest

/-! ## Helper lemmas -/

lemma runLife_append (s : EncoderState) (a b : List LifeEvent) :
    runLife s (a ++ b) = runLife (runLife s a) b := by
  induction a generalizing s with
  | nil => rfl
  | cons e rest ih => simpa [runLife] using ih (stepLife s e)

lemma runLife_not_initialized (evs : List LifeEvent) :
    ∀ s : EncoderState, s.initialized = false → hasInitOk evs = false →
      (runLife s evs).initialized = false := by
  induction evs with
  | nil => intro s hs _; exact hs
  | cons e rest ih =>
      intro s hs h
      cases e with
      | initOk c => simp [hasInitOk] at h
      | initFail => exact ih _ rfl (by simpa [hasInitOk] using h)
      | release => exact ih _ rfl (by simpa [hasInitOk] using h)

lemma runLife_maxFramerate_of_lastInit_none (evs : List LifeEvent) :
    ∀ s : EncoderState, lastInit evs = none →
      (runLife s evs).maxFramerate = s.maxFramerate := by
  induction evs with
  | nil => intro s _; rfl
  | cons e rest ih =>
      intro s h
      cases e with
      | initOk c => simp [lastInit] at h
      | initFail => simpa [runLife, stepLife] using ih _ (by simpa [lastInit] using h)
      | release => simpa [runLife, stepLife] using ih _ (by simpa [lastInit] using h)

lemma runLife_maxFramerate_of_lastInit (evs : List LifeEvent) (c : VideoCodec) :
    ∀ s : EncoderState, lastInit evs = some c →
      (runLife s evs).maxFramerate = c.maxFramerate := by
  induction evs with
  | nil => intro s h; simp [lastInit] at h
  | cons e rest ih =>
      intro s h
      cases e with
      | initOk c0 =>
          rcases h0 : lastInit rest with _ | c1
          · have hc : c = c0 := by
              simp [lastInit, h0] at h; exact h.symm
            subst hc
            simpa [runLife, stepLife] using
              runLife_maxFramerate_of_lastInit_none rest _ h0
          · have hc : c = c1 := by
              simp [lastInit, h0] at h; exact h.symm
            subst hc
            exact ih _ h0
      | initFail => exact ih _ (by simpa [lastInit] using h)
      | release => exact ih _ (by simpa [lastInit] using h)

lemma cumulativeLayer_mono {l : List Nat} (hc : cumulativeLayer l)
    {i j : Nat} (hij : i < j) (hj : j < l.length) :
    l.get ⟨i, hij.trans hj⟩ ≤ l.get ⟨j, hj⟩ := by
  have hp : List.Pairwise (fun a b => a ≤ b) l :=
    List.chain'_iff_pairwise.mp hc
  exact List.pairwise_iff_get.mp hp ⟨i, hij.trans hj⟩ ⟨j, hj⟩ hij

/-! ## Claim theorems -/

/-- Claim C10: a default-constructed `QpThresholds` has `low = -1` and
`high = -1` (a sentinel outside the valid quantization-quality range), while
`QpThresholds(l, h)` stores exactly `l` as `low` and `h` as `high`. -/
theorem qpThresholds_ctor_spec :
    QpThresholds.defaultCtor.low = -1 ∧ QpThresholds.defaultCtor.high = -1 ∧
    ∀ l h : Int,
      (QpThresholds.ofPair l h).low = l ∧ (QpThresholds.ofPair l h).high = h :=
  ⟨rfl, rfl, fun _ _ => ⟨rfl, rfl⟩⟩

/-- Claim C9: every `ScalingSettings` built without an explicit minimum pixel
count — from `kOff` or from a `(low, high)` pair — has `min_pixels_per_frame`
equal to `320 * 180 = 57600`, the resolution floor the pipeline never goes
below. -/
theorem scalingSettings_min_pixels_default :
    ScalingSettings.ofKOff.min_pixels_per_frame = 320 * 180 ∧
    ScalingSettings.ofKOff.min_pixels_per_frame = 57600 ∧
    ∀ low high : Int,
      (ScalingSettings.ofThresholds low high).min_pixels_per_frame = 57600 :=
  ⟨rfl, rfl, fun _ _ => rfl⟩

/-- Claim C8: `ScalingSettings` built from the magic `kOff` constant has no
thresholds, which disables quality scaling; built from a `(low, high)` pair
it has thresholds present, enabling quality scaling. -/
theorem scalingSettings_kOff_disables_scaling :
    ScalingSettings.ofKOff.thresholds = none ∧
    ScalingSettings.ofKOff.qualityScalingEnabled = false ∧
    ∀ low high : Int,
      (ScalingSettings.ofThresholds low high).thresholds =
          some (QpThresholds.ofPair low high) ∧
        (ScalingSettings.ofThresholds low high).qualityScalingEnabled = true :=
  ⟨rfl, rfl, fun _ _ => ⟨rfl, rfl⟩⟩

/-- Claim C7: a default-constructed `EncoderInfo`'s frame-rate table is
exactly one non-empty spatial-layer entry holding the single fraction
`kMaxFramerateFraction = 255` (100%), with every other spatial layer's
sequence empty. -/
theorem encoderInfo_default_fps_allocation :
    EncoderInfo.defaultCtor.fps_allocation =
        [[kMaxFramerateFraction], [], [], [], []] ∧
      kMaxFramerateFraction = 255 ∧
      EncoderInfo.defaultCtor.fps_allocation.length = kMaxSpatialLayers :=
  ⟨rfl, rfl, rfl⟩

/-- Claim C2: the default implementation of the oldest legacy call
`SetRates(uint32_t, uint32_t)` fails loudly for every input — it hits the
unreachable-code assertion, returns a negative error code, never succeeds
and forwards to no further fallback. -/
theorem setRatesLegacy_default_fails (b : Backend) (bitrate framerate : Nat)
    (h : b.overridesLegacyRates = false) :
    (setRatesLegacy b bitrate framerate).1 = WEBRTC_VIDEO_CODEC_ERROR ∧
    (setRatesLegacy b bitrate framerate).1 < 0 ∧
    (setRatesLegacy b bitrate framerate).1 ≠ WEBRTC_VIDEO_CODEC_OK ∧
    (setRatesLegacy b bitrate framerate).2 = [RateCall.notReached] := by
  have e : setRatesLegacy b bitrate framerate =
      (WEBRTC_VIDEO_CODEC_ERROR, [RateCall.notReached]) := by
    simp [setRatesLegacy, h]
  rw [e]
  exact ⟨rfl, by decide, by decide, rfl⟩

/-- Witness for C2 at a concrete backend and input. -/
theorem setRatesLegacy_default_fails_witness :
    (setRatesLegacy ⟨false, false, false⟩ 300 30).1 = WEBRTC_VIDEO_CODEC_ERROR ∧
    (setRatesLegacy ⟨false, false, false⟩ 300 30).1 < 0 ∧
    (setRatesLegacy ⟨false, false, false⟩ 300 30).1 ≠ WEBRTC_VIDEO_CODEC_OK ∧
    (setRatesLegacy ⟨false, false, false⟩ 300 30).2 = [RateCall.notReached] :=
  setRatesLegacy_default_fails ⟨false, false, false⟩ 300 30 rfl

/-- Claim C1: the default structured `SetRates(RateControlParameters)`
forwards to `SetRateAllocation` with the allocation and the target
framerate; the default `SetRateAllocation` forwards the allocation's flat
sum in kbps to the legacy `SetRates(uint32_t, uint32_t)`; hence a backend
overriding exactly one level of the chain observes, at every entry point
above its override, exactly one invocation of its override with the
correctly decomposed arguments. -/
theorem setRates_shim_chain (b : Backend) (p : RateControlParameters)
    (a : VideoBitrateAllocation) (fr : Nat) :
    (b.overridesStructuredRates = false →
      setRatesStructured b p =
        (setRateAllocation b p.bitrate (legacyFramerate p.framerate_fps)).2) ∧
    (b.overridesRateAllocation = false →
      setRateAllocation b a fr = setRatesLegacy b a.get_sum_kbps fr) ∧
    (b = ⟨true, false, false⟩ →
      setRatesStructured b p =
          [RateCall.legacy p.bitrate.get_sum_kbps
            (legacyFramerate p.framerate_fps)] ∧
        (setRateAllocation b a fr).2 = [RateCall.legacy a.get_sum_kbps fr]) ∧
    (b = ⟨false, true, false⟩ →
      setRatesStructured b p =
          [RateCall.allocation p.bitrate (legacyFramerate p.framerate_fps)] ∧
        (setRateAllocation b a fr).2 = [RateCall.allocation a fr]) ∧
    (b = ⟨false, false, true⟩ →
      setRatesStructured b p = [RateCall.structured p]) := by
  refine ⟨fun h => ?_, fun h => ?_, fun h => ?_, fun h => ?_, fun h => ?_⟩
  · simp [setRatesStructured, h]
  · simp [setRateAllocation, h]
  · subst h; exact ⟨rfl, rfl⟩
  · subst h; exact ⟨rfl, rfl⟩
  · subst h; rfl

/-- Witness for C1: the three single-override backends, on a concrete
allocation of 100000 bps and target framerate 30, each observe the call at
their own level with the decomposed arguments. -/
theorem setRates_shim_chain_witness :
    (setRatesStructured ⟨true, false, false⟩
        ⟨⟨[[100000], []]⟩, 30, 120000⟩ = [RateCall.legacy 100 30]) ∧
    (setRatesStructured ⟨false, true, false⟩
        ⟨⟨[[100000], []]⟩, 30, 120000⟩ =
      [RateCall.allocation ⟨[[100000], []]⟩ 30]) ∧
    (setRatesStructured ⟨false, false, true⟩
        ⟨⟨[[100000], []]⟩, 30, 120000⟩ =
      [RateCall.structured ⟨⟨[[100000], []]⟩, 30, 120000⟩]) := by
  have hf : legacyFramerate 30 = 30 := by
    norm_num [legacyFramerate, Rat.floor_def']
    rfl
  refine ⟨?_, ?_, ?_⟩
  · have h := (setRates_shim_chain ⟨true, false, false⟩
      ⟨⟨[[100000], []]⟩, 30, 120000⟩ ⟨[[100000], []]⟩ 30).2.2.1 rfl
    rw [h.1]
    simp [VideoBitrateAllocation.get_sum_kbps, VideoBitrateAllocation.get_sum_bps,
      hf]
  · have h := (setRates_shim_chain ⟨false, true, false⟩
      ⟨⟨[[100000], []]⟩, 30, 120000⟩ ⟨[[100000], []]⟩ 30).2.2.2.1 rfl
    rw [h.1]
    simp [hf]
  · exact (setRates_shim_chain ⟨false, false, true⟩
      ⟨⟨[[100000], []]⟩, 30, 120000⟩ ⟨[[100000], []]⟩ 30).2.2.2.2 rfl

/-- Claim C5: in any `EncoderInfo` conforming to the cumulative
temporal-layer contract of `fps_allocation`, within each spatial layer's
fps sequence the fraction at a higher temporal index `j` is ≥ the fraction
at any lower index `i`. -/
theorem fps_allocation_cumulative_mono (info : EncoderInfo)
    (h : cumulativeFps info) (l : List Nat) (hl : l ∈ info.fps_allocation)
    (i j : Nat) (hij : i < j) (hj : j < l.length) :
    l.get ⟨i, hij.trans hj⟩ ≤ l.get ⟨j, hj⟩ :=
  cumulativeLayer_mono (h l hl) hij hj

/-- Witness for C5 on a concrete two-temporal-layer table. -/
theorem fps_allocation_cumulative_mono_witness :
    ([128, 255] : List Nat).get ⟨0, by decide⟩ ≤
      ([128, 255] : List Nat).get ⟨1, by decide⟩ :=
  fps_allocation_cumulative_mono
    { EncoderInfo.defaultCtor with fps_allocation := [[128, 255]] }
    (fun l hl => by
      simp only [List.mem_singleton] at hl
      subst hl
      exact List.chain'_pair.mpr (by norm_num))
    [128, 255] (by decide) 0 1 (by decide) (by decide)

/-- Claim C4: on an initialized encoder, `SetRates` with a framerate ≤ 0
leaves the encoder operating at the max framerate given in the codec
settings of its most recent successful `InitEncode`. -/
theorem setRates_nonpositive_framerate_fallback (evs : List LifeEvent)
    (c : VideoCodec) (p : RateControlParameters)
    (h1 : lastInit evs = some c) (h2 : p.framerate_fps ≤ 0) :
    (applySetRates (runLife initialState evs) p).currentFramerate =
      (c.maxFramerate : Rat) := by
  have hm := runLife_maxFramerate_of_lastInit evs c initialState h1
  unfold applySetRates
  rw [if_pos h2]
  simp [hm]

/-- Witness for C4: after `InitEncode` with max framerate 30, a `SetRates`
carrying framerate 0 leaves the encoder at 30 fps. -/
theorem setRates_nonpositive_framerate_fallback_witness :
    (applySetRates (runLife initialState [LifeEvent.initOk ⟨30⟩])
        ⟨⟨[[100000]]⟩, 0, 0⟩).currentFramerate = ((30 : Nat) : Rat) :=
  setRates_nonpositive_framerate_fallback [LifeEvent.initOk ⟨30⟩] ⟨30⟩
    ⟨⟨[[100000]]⟩, 0, 0⟩ rfl (by norm_num)

/-- Claim C3: `Encode` called before any successful `InitEncode`, or after
`Release` with no successful `InitEncode` since, fails with exactly the
`NotInitialized` kind `WEBRTC_VIDEO_CODEC_UNINITIALIZED` — a negative code
distinct from `ERR_PARAMETER`, `MEMORY` and `ERROR`. -/
theorem encode_uninitialized_error (evs post : List LifeEvent)
    (backend_result : Int) :
    (hasInitOk evs = false →
      encodeResult (runLife initialState evs) backend_result =
        WEBRTC_VIDEO_CODEC_UNINITIALIZED) ∧
    (hasInitOk post = false →
      encodeResult (runLife initialState (evs ++ LifeEvent.release :: post))
          backend_result =
        WEBRTC_VIDEO_CODEC_UNINITIALIZED) ∧
    WEBRTC_VIDEO_CODEC_UNINITIALIZED < 0 ∧
    WEBRTC_VIDEO_CODEC_UNINITIALIZED ≠ WEBRTC_VIDEO_CODEC_ERR_PARAMETER ∧
    WEBRTC_VIDEO_CODEC_UNINITIALIZED ≠ WEBRTC_VIDEO_CODEC_MEMORY ∧
    WEBRTC_VIDEO_CODEC_UNINITIALIZED ≠ WEBRTC_VIDEO_CODEC_ERROR := by
  refine ⟨fun h => ?_, fun h => ?_, by decide, by decide, by decide, by decide⟩
  · have hi := runLife_not_initialized evs initialState rfl h
    simp [encodeResult, hi]
  · rw [runLife_append]
    have hstep : runLife (runLife initialState evs)
        (LifeEvent.release :: post) =
        runLife (stepLife (runLife initialState evs) LifeEvent.release)
          post := rfl
    rw [hstep]
    have hi := runLife_not_initialized post
      (stepLife (runLife initialState evs) LifeEvent.release) rfl h
    simp [encodeResult, hi]

/-- Witness for C3: after init then `Release`, `Encode` returns
`WEBRTC_VIDEO_CODEC_UNINITIALIZED` even though the backend would have
reported success. -/
theorem encode_uninitialized_error_witness :
    encodeResult
        (runLife initialState
          ([LifeEvent.initOk ⟨30⟩] ++ LifeEvent.release :: []))
        WEBRTC_VIDEO_CODEC_OK =
      WEBRTC_VIDEO_CODEC_UNINITIALIZED :=
  (encode_uninitialized_error [LifeEvent.initOk ⟨30⟩] []
    WEBRTC_VIDEO_CODEC_OK).2.1 rfl

/-- Claim C6: from any backend drop-state, if the frame at position `i` is
encoded and its `OnEncodedImage` result sets `drop_next_frame`, then the
very next submitted frame (when one exists) is skipped — it yields
`OnDroppedFrame(kDroppedByMediaOptimizations)` and no `OnEncodedImage` —
and exactly one frame is skipped: the frame after that is encoded again. -/
theorem drop_next_frame_exactly_one (rs : List Result) (flag : Bool) (i : Nat)
    (r : Result)
    (h : (runEnc flag rs).get? i = some (ChannelEvent.encodedImage r))
    (hd : r.drop_next_frame = true) :
    ((runEnc flag rs).get? (i + 1) =
        some (ChannelEvent.droppedFrame
          DropReason.kDroppedByMediaOptimizations) ∨
      (runEnc flag rs).get? (i + 1) = none) ∧
    ∀ e, (runEnc flag rs).get? (i + 2) = some e →
      ∃ r2, e = ChannelEvent.encodedImage r2 := by
  induction rs generalizing flag i with
  | nil => simp [runEnc] at h
  | cons r0 rest ih =>
      cases flag with
      | true =>
          cases i with
          | zero => simp [runEnc, List.get?] at h
          | succ k =>
              have h2 : (runEnc false rest).get? k =
                  some (ChannelEvent.encodedImage r) := by
                simpa [runEnc, List.get?] using h
              have hk := ih false k h2
              simpa [runEnc, List.get?] using hk
      | false =>
          cases i with
          | zero =>
              have hr : r0 = r := by
                simpa [runEnc, List.get?] using h
              subst hr
              constructor
              · cases rest with
                | nil => right; simp [runEnc, List.get?, hd]
                | cons r1 rest2 => left; simp [runEnc, List.get?, hd]
              · intro e he
                cases rest with
                | nil => simp [runEnc, List.get?, hd] at he
                | cons r1 rest2 =>
                    cases rest2 with
                    | nil => simp [runEnc, List.get?, hd] at he
                    | cons r2 rest3 =>
                        refine ⟨r2, ?_⟩
                        have he2 : e = ChannelEvent.encodedImage r2 := by
                          have : (runEnc false (r2 :: rest3)).get? 0 =
                              some e := by
                            simpa [runEnc, List.get?, hd] using he
                          simpa [runEnc, List.get?] using this.symm
                        exact he2
          | succ k =>
              have h2 : (runEnc r0.drop_next_frame rest).get? k =
                  some (ChannelEvent.encodedImage r) := by
                simpa [runEnc, List.get?] using h
              have hk := ih r0.drop_next_frame k h2
              simpa [runEnc, List.get?] using hk

/-- Witness for C6: a three-frame run whose first result requests a drop —
the second frame is dropped with reason `kDroppedByMediaOptimizations`. -/
theorem drop_next_frame_exactly_one_witness :
    (runEnc false [⟨ResultError.OK, 1, true⟩, ⟨ResultError.OK, 2, false⟩,
        ⟨ResultError.OK, 3, false⟩]).get? 1 =
      some (ChannelEvent.droppedFrame
        DropReason.kDroppedByMediaOptimizations) := by
  have h := drop_next_frame_exactly_one
    [⟨ResultError.OK, 1, true⟩, ⟨ResultError.OK, 2, false⟩,
      ⟨ResultError.OK, 3, false⟩] false 0 ⟨ResultError.OK, 1, true⟩ rfl rfl
  rcases h.1 with h1 | h1
  · exact h1
  · exact absurd h1 (by simp [runEnc, List.get?])

end Webrtc
